import Mathlib

/-!
Verification of the Star-Rating badge service (src/app.py).

The service renders star/moon rating badges. Ratings are modelled as exact
rationals; the SVG documents emitted by the renderers are modelled as
structured element lists in document order, keeping every numeric attribute
the Python code writes into the markup.
-/

/-- A path element of the star SVG: the x-translation of its transform, its
fill colour, and, when it carries a clip-path, the width of the clip
rectangle (the rectangle is `x=0, y=0, height=100` in the path's own space). -/
structure StarPath where
  tx : ℚ
  fill : String
  clipWidth : Option ℚ
deriving DecidableEq

/-- The star SVG document: viewBox width (the viewBox is `0 0 w 100`), pixel
width and height attributes, and the emitted path elements in document order. -/
structure StarSVG where
  viewBoxW : ℤ
  width : ℤ
  height : ℤ
  paths : List StarPath
deriving DecidableEq

/-- Embeds `get_star_rating` (src/app.py lines 5-52). Python's `int(rating)`
truncates, which equals the floor on the clamped, nonnegative rating. -/
def get_star_rating (rating : ℚ) (size : ℤ) (max_stars : ℤ) : StarSVG :=
  let rating := max 0 (min (max_stars : ℚ) rating)
  let full_stars : ℕ := (⌊rating⌋).toNat
  let frac : ℚ := rating - full_stars
  let empty_stars : ℤ := max_stars - full_stars - (if frac > 0 then 1 else 0)
  ⟨max_stars * 100, size * max_stars, size,
    (List.range full_stars).map (fun i => ⟨(i : ℚ) * 100, "gold", none⟩)
    ++ (if frac > 0 then
          [⟨(full_stars : ℚ) * 100, "#ddd", none⟩,
           ⟨(full_stars : ℚ) * 100, "gold", some (frac * 100)⟩]
        else [])
    ++ (List.range empty_stars.toNat).map
        (fun i => ⟨((full_stars : ℚ) + (if frac > 0 then 1 else 0) + i) * 100, "#ddd", none⟩)⟩

/-- The clamped rating computed at src/app.py line 14. -/
def star_clamped (rating : ℚ) (max_stars : ℤ) : ℚ :=
  max 0 (min (max_stars : ℚ) rating)

/-- full_stars of the star renderer (src/app.py line 15). -/
def star_full (rating : ℚ) (max_stars : ℤ) : ℕ :=
  (⌊star_clamped rating max_stars⌋).toNat

/-- The fractional part of the clamped rating (src/app.py line 16; named
"partial" in the source, which is a reserved word here). -/
def star_frac (rating : ℚ) (max_stars : ℤ) : ℚ :=
  star_clamped rating max_stars - star_full rating max_stars

/-- empty_stars of the star renderer (src/app.py line 17). -/
def star_empty (rating : ℚ) (max_stars : ℤ) : ℕ :=
  (max_stars - star_full rating max_stars -
    (if star_frac rating max_stars > 0 then 1 else 0)).toNat

/-- Embeds `get_moon_phase_type` (src/app.py lines 57-68). -/
def get_moon_phase_type (percentage : ℚ) : String :=
  if percentage ≤ 0.1 then "new"
  else if percentage ≤ 0.3 then "crescent"
  else if percentage ≤ 0.6 then "half"
  else if percentage ≤ 0.9 then "gibbous"
  else "full"

/-- The per-unit fill value `max(0, min(1, rating - i))` computed identically
at src/app.py lines 96, 122, 163 and 210 (every call site of the phase
bucketing functions). -/
def moon_value (rating : ℚ) (i : ℕ) : ℚ :=
  max 0 (min 1 (rating - i))

/-- The phase → clip-width mapping inlined at src/app.py lines 100-109
(first moon renderer, in viewBox units out of 100). -/
def clip_width_of_phase (phase : String) : ℚ :=
  if phase = "new" then 0
  else if phase = "crescent" then 25
  else if phase = "half" then 50
  else if phase = "gibbous" then 75
  else 100

/-- The phase → fill-percentage mapping inlined at src/app.py lines 167-176
(v2 moon renderer, as a fraction of 1). -/
def fill_pct_of_phase (phase : String) : ℚ :=
  if phase = "new" then 0
  else if phase = "crescent" then 0.25
  else if phase = "half" then 0.5
  else if phase = "gibbous" then 0.75
  else 1.0

/-- Bucket percentage of a fill value: the v2 fill percentage as a function of
the per-unit fill value. -/
def bucketPct (f : ℚ) : ℚ :=
  fill_pct_of_phase (get_moon_phase_type f)

/-- A clip rectangle as written into a `clipPath` element. -/
structure ClipRect where
  x : ℚ
  y : ℚ
  width : ℚ
  height : ℚ
deriving DecidableEq

/-- A circle element: centre, radius, fill colour, the clip rectangle it
references (stated in the circle's own user space), and the x-translation of
its transform attribute (0 when the attribute is absent). -/
structure MoonCircle where
  cx : ℚ
  cy : ℚ
  r : ℚ
  fill : String
  clip : Option ClipRect
  tx : ℚ
deriving DecidableEq

/-- One moon cell as emitted per loop iteration: the gray background circle
and, when the renderer draws it, the gold filled circle. -/
structure MoonUnit where
  bg : MoonCircle
  filled : Option MoonCircle
deriving DecidableEq

/-- A moon SVG document: viewBox width (the viewBox is `0 0 w 100`), pixel
width and height attributes, and the per-unit elements in document order. -/
structure MoonSVG where
  viewBoxW : ℤ
  width : ℤ
  height : ℤ
  units : List MoonUnit
deriving DecidableEq

/-- One unit of `get_moon_rating_svg` (src/app.py lines 95-135): a gray circle
at `cx = i*100 + 50`; when the phase is not "new", a gold circle with the same
`cx`, referencing clip rect `x=0, width=clip_width` and carrying
`transform="translate(i*100, 0)"`. -/
def moonUnitV1 (rating : ℚ) (i : ℕ) : MoonUnit :=
  let x : ℚ := i * 100
  let phase := get_moon_phase_type (moon_value rating i)
  ⟨⟨x + 50, 50, 40, "#ddd", none, 0⟩,
   if phase ≠ "new" then
     some ⟨x + 50, 50, 40, "#F4D03F", some ⟨0, 0, clip_width_of_phase phase, 100⟩, x⟩
   else none⟩

/-- Embeds `get_moon_rating_svg` (src/app.py lines 71-140), the first moon SVG
renderer (shared clip-path library plus per-circle translation). -/
def get_moon_rating_svg (rating : ℚ) (size : ℤ) (max_moons : ℤ) : MoonSVG :=
  let rating := max 0 (min (max_moons : ℚ) rating)
  ⟨max_moons * 100, size * max_moons, size,
   (List.range max_moons.toNat).map (moonUnitV1 rating)⟩

/-- One unit of `get_moon_rating_svg_v2` (src/app.py lines 161-187): a gray
circle at `cx = i*100 + 50`; when `fill_pct > 0`, a gold circle with the same
`cx`, an inline clip rect `x=i*100, width=fill_pct*100`, and no transform. -/
def moonUnitV2 (rating : ℚ) (i : ℕ) : MoonUnit :=
  let x : ℚ := i * 100 + 50
  let fill_pct := fill_pct_of_phase (get_moon_phase_type (moon_value rating i))
  ⟨⟨x, 50, 40, "#ddd", none, 0⟩,
   if fill_pct > 0 then
     some ⟨x, 50, 40, "#F4D03F", some ⟨(i : ℚ) * 100, 0, fill_pct * 100, 100⟩, 0⟩
   else none⟩

/-- Embeds `get_moon_rating_svg_v2` (src/app.py lines 143-190), the moon SVG
renderer wired to the `/moon/` route. -/
def get_moon_rating_svg_v2 (rating : ℚ) (size : ℤ) (max_moons : ℤ) : MoonSVG :=
  let rating := max 0 (min (max_moons : ℚ) rating)
  ⟨max_moons * 100, size * max_moons, size,
   (List.range max_moons.toNat).map (moonUnitV2 rating)⟩

/-- Embeds `get_moon_phase` (src/app.py lines 194-204), the legacy glyph
version of the phase bucketing. -/
def get_moon_phase (percentage : ℚ) : String :=
  if percentage ≤ 0.1 then "🌑"
  else if percentage ≤ 0.3 then "🌘"
  else if percentage ≤ 0.6 then "🌗"
  else if percentage ≤ 0.9 then "🌖"
  else "🌕"

/-- The glyph list built by `get_moon_rating`'s loop (src/app.py lines
208-211) from the already-clamped rating. -/
def moon_rating_output (rating : ℚ) : List String :=
  (List.range 5).map (fun i => get_moon_phase (moon_value rating i))

/-- Embeds `get_moon_rating` (src/app.py lines 206-212), the legacy text
renderer. -/
def get_moon_rating (rating : ℚ) : String :=
  let rating := max (min 5 rating) 0
  String.join (moon_rating_output rating)

/-- Rendered fill of one star path: 1 for an unclipped gold star,
clip width / 100 for a clipped gold star, 0 for a gray star. -/
def starFill (p : StarPath) : ℚ :=
  if p.fill = "gold" then (match p.clipWidth with | some w => w / 100 | none => 1) else 0

/-- Total rendered fill of a star document. -/
def starFillSum (s : StarSVG) : ℚ := (s.paths.map starFill).sum

/-- Rendered fill of one moon unit: clip width / 100 of its gold circle,
0 when no gold circle was emitted. -/
def unitFill (u : MoonUnit) : ℚ :=
  match u.filled with
  | none => 0
  | some c => match c.clip with | some rect => rect.width / 100 | none => 1

/-- Total rendered fill of a moon document. -/
def moonFillSum (m : MoonSVG) : ℚ := (m.units.map unitFill).sum

/-- Effective centre x of a circle in root coordinates: SVG applies the
element's transform to the element and to its referenced clip path. -/
def effCenterX (c : MoonCircle) : ℚ := c.tx + c.cx

/-- Effective horizontal extent of a circle's clip rectangle in root
coordinates, after the circle's transform. -/
def effClipX (c : MoonCircle) : Option (ℚ × ℚ) :=
  c.clip.map (fun rect => (c.tx + rect.x, c.tx + rect.x + rect.width))

/-- Unit `i`'s visible fill matches bucket percentage `p`: the gold circle is
present iff `p > 0`, it coincides with the cell's circle (centre
`(i*100+50, 50)`, radius 40, in root coordinates), and its effective clip
interval reveals exactly the left `p` fraction of the 100-wide cell. -/
def unitVisibleMatches (i : ℕ) (p : ℚ) (u : MoonUnit) : Bool :=
  match u.filled with
  | none => p == 0
  | some c =>
      decide (0 < p) && effCenterX c == (i : ℚ) * 100 + 50 && c.cy == 50 && c.r == 40
        && effClipX c == some ((i : ℚ) * 100, (i : ℚ) * 100 + p * 100)

/-- Every unit of a moon document shows exactly the bucket-derived fill of its
fill value (the rating clamped to `[0, max_moons]`, minus the unit index,
clamped to `[0, 1]`). -/
def moonVisibleOk (rating : ℚ) (max_moons : ℤ) (m : MoonSVG) : Bool :=
  m.units.enum.all (fun p =>
    unitVisibleMatches p.1
      (bucketPct (moon_value (max 0 (min (max_moons : ℚ) rating)) p.1)) p.2)

/-- Response body of a route handler. -/
inductive Body where
  | text : String → Body
  | star : StarSVG → Body
  | moon : MoonSVG → Body
deriving DecidableEq

/-- An HTTP response: status code, the Content-Type header when the handler
sets one explicitly, and the body. -/
structure HttpResponse where
  status : ℕ
  contentType : Option String
  body : Body
deriving DecidableEq

/-- Value of a digit string, most significant digit first. -/
def digitsToNat (cs : List Char) : ℕ :=
  cs.foldl (fun a c => 10 * a + (c.toNat - 48)) 0

/-- Mantissa of a float literal: `digits`, `digits.`, `digits.digits`,
or `.digits`. -/
def parseMantissa (cs : List Char) : Option ℚ :=
  let intPart := cs.takeWhile Char.isDigit
  let rest := cs.dropWhile Char.isDigit
  match rest with
  | [] => if intPart.isEmpty then none else some (digitsToNat intPart : ℚ)
  | '.' :: fracPart =>
      if fracPart.all Char.isDigit && !(intPart.isEmpty && fracPart.isEmpty) then
        some ((digitsToNat intPart : ℚ) + (digitsToNat fracPart : ℚ) / 10 ^ fracPart.length)
      else none
  | _ => none

/-- Exponent part of a float literal: optional sign then digits. -/
def parseExp (cs : List Char) : Option ℤ :=
  match cs with
  | '+' :: t => if !t.isEmpty && t.all Char.isDigit then some (digitsToNat t : ℤ) else none
  | '-' :: t => if !t.isEmpty && t.all Char.isDigit then some (-(digitsToNat t : ℤ)) else none
  | t => if !t.isEmpty && t.all Char.isDigit then some (digitsToNat t : ℤ) else none

/-- Models Python's `float()` on its finite decimal forms (optional
surrounding whitespace, optional sign, decimal mantissa, optional exponent),
returning `none` exactly when `float()` raises ValueError on such inputs.
The special forms "inf"/"nan" and digit-group underscores are not modelled;
values are exact rationals rather than binary64. -/
def pyFloat (s : String) : Option ℚ :=
  let cs := ((s.toList.dropWhile Char.isWhitespace).reverse.dropWhile
    Char.isWhitespace).reverse
  let sc := match cs with
    | '+' :: t => ((1 : ℚ), t)
    | '-' :: t => ((-1 : ℚ), t)
    | t => ((1 : ℚ), t)
  let mant := sc.2.takeWhile (fun c => c != 'e' && c != 'E')
  let rest := sc.2.dropWhile (fun c => c != 'e' && c != 'E')
  match parseMantissa mant with
  | none => none
  | some m =>
      match rest with
      | [] => some (sc.1 * m)
      | _ :: expPart =>
          match parseExp expPart with
          | none => none
          | some e => some (sc.1 * m * (10 : ℚ) ^ e)

/-- Embeds route handler `star_rating` (src/app.py lines 218-230); the
try/except around `float()` is modelled by matching on the parse result. -/
def star_rating (parsed : Option ℚ) (size max_stars : ℤ) : HttpResponse :=
  match parsed with
  | none => ⟨400, none, Body.text "Invalid rating value"⟩
  | some rating => ⟨200, some "image/svg+xml", Body.star (get_star_rating rating size max_stars)⟩

/-- Embeds route handler `moon_rating_route` (src/app.py lines 232-246). -/
def moon_rating_route (parsed : Option ℚ) (size max_moons : ℤ) : HttpResponse :=
  match parsed with
  | none => ⟨400, none, Body.text "Invalid rating value"⟩
  | some rating =>
      ⟨200, some "image/svg+xml", Body.moon (get_moon_rating_svg_v2 rating size max_moons)⟩

/-- Embeds route handler `moon_rating_emoji` (src/app.py lines 249-260). -/
def moon_rating_emoji (parsed : Option ℚ) : HttpResponse :=
  match parsed with
  | none => ⟨400, none, Body.text "Invalid rating value"⟩
  | some rating => ⟨200, some "text/plain; charset=utf-8", Body.text (get_moon_rating rating)⟩

/-! Helper lemmas characterising the phase bucketing. -/

theorem phase_eq_new {f : ℚ} (h : f ≤ 0.1) : get_moon_phase_type f = "new" := by
  unfold get_moon_phase_type
  rw [if_pos h]

theorem phase_eq_crescent {f : ℚ} (h1 : 0.1 < f) (h2 : f ≤ 0.3) :
    get_moon_phase_type f = "crescent" := by
  unfold get_moon_phase_type
  rw [if_neg (not_le.2 h1), if_pos h2]

theorem phase_eq_half {f : ℚ} (h1 : 0.3 < f) (h2 : f ≤ 0.6) :
    get_moon_phase_type f = "half" := by
  unfold get_moon_phase_type
  rw [if_neg (not_le.2 (by linarith)), if_neg (not_le.2 h1), if_pos h2]

theorem phase_eq_gibbous {f : ℚ} (h1 : 0.6 < f) (h2 : f ≤ 0.9) :
    get_moon_phase_type f = "gibbous" := by
  unfold get_moon_phase_type
  rw [if_neg (not_le.2 (by linarith)), if_neg (not_le.2 (by linarith)),
    if_neg (not_le.2 h1), if_pos h2]

theorem phase_eq_full {f : ℚ} (h1 : 0.9 < f) : get_moon_phase_type f = "full" := by
  unfold get_moon_phase_type
  rw [if_neg (not_le.2 (by linarith)), if_neg (not_le.2 (by linarith)),
    if_neg (not_le.2 (by linarith)), if_neg (not_le.2 h1)]

/-- C1: The phase bucketing function is total and deterministic on fill
fractions and maps them by fixed thresholds with boundary values belonging to
the lower bucket: f ≤ 0.1 gives "new", 0.1 < f ≤ 0.3 gives "crescent",
0.3 < f ≤ 0.6 gives "half", 0.6 < f ≤ 0.9 gives "gibbous", f > 0.9 gives
"full"; in particular f=0.1 gives "new", f=0.1000001 gives "crescent",
f=0.3 gives "crescent", f=0.6 gives "half", f=0.9 gives "gibbous", and
f=1.0 gives "full". -/
theorem C1_phase_bucketing (f : ℚ) :
    (f ≤ 0.1 → get_moon_phase_type f = "new") ∧
    (0.1 < f → f ≤ 0.3 → get_moon_phase_type f = "crescent") ∧
    (0.3 < f → f ≤ 0.6 → get_moon_phase_type f = "half") ∧
    (0.6 < f → f ≤ 0.9 → get_moon_phase_type f = "gibbous") ∧
    (0.9 < f → get_moon_phase_type f = "full") ∧
    get_moon_phase_type 0.1 = "new" ∧
    get_moon_phase_type 0.1000001 = "crescent" ∧
    get_moon_phase_type 0.3 = "crescent" ∧
    get_moon_phase_type 0.6 = "half" ∧
    get_moon_phase_type 0.9 = "gibbous" ∧
    get_moon_phase_type 1.0 = "full" :=
  ⟨fun h => phase_eq_new h, fun h1 h2 => phase_eq_crescent h1 h2,
   fun h1 h2 => phase_eq_half h1 h2, fun h1 h2 => phase_eq_gibbous h1 h2,
   fun h1 => phase_eq_full h1,
   phase_eq_new (by norm_num), phase_eq_crescent (by norm_num) (by norm_num),
   phase_eq_crescent (by norm_num) (by norm_num), phase_eq_half (by norm_num) (by norm_num),
   phase_eq_gibbous (by norm_num) (by norm_num), phase_eq_full (by norm_num)⟩

/-- Witness for C1 at the boundary input f = 0.1. -/
theorem C1_phase_bucketing_witness :
    (0.1 : ℚ) ≤ 0.1 ∧ get_moon_phase_type 0.1 = "new" :=
  ⟨le_refl _, (C1_phase_bucketing 0.1).1 (le_refl _)⟩

/-- C10: The per-unit value max(0, min(1, rating - i)) computed at each call
site of the phase-bucketing functions (src/app.py lines 96, 122, 163, 210,
all of which apply `moon_value`) lies in [0,1], so the bucketing function's
documented precondition f ∈ [0,1] is satisfied at every call site. -/
theorem C10_moon_value_in_unit_interval (rating : ℚ) (i : ℕ) :
    0 ≤ moon_value rating i ∧ moon_value rating i ≤ 1 := by
  unfold moon_value
  exact ⟨le_max_left _ _, max_le (by norm_num) (min_le_left _ _)⟩

/-- C5: Each rating route handler answers 400 with body "Invalid rating
value" exactly when the path segment does not parse as a float; "abc" does
not parse, and a successful parse yields status 200. -/
theorem C5_invalid_rating_iff (parsed : Option ℚ) (size max_stars max_moons : ℤ) :
    ((star_rating parsed size max_stars).status = 400 ∧
        (star_rating parsed size max_stars).body = Body.text "Invalid rating value" ↔
      parsed = none) ∧
    ((moon_rating_route parsed size max_moons).status = 400 ∧
        (moon_rating_route parsed size max_moons).body = Body.text "Invalid rating value" ↔
      parsed = none) ∧
    ((moon_rating_emoji parsed).status = 400 ∧
        (moon_rating_emoji parsed).body = Body.text "Invalid rating value" ↔
      parsed = none) ∧
    (∀ r : ℚ, parsed = some r →
      (star_rating parsed size max_stars).status = 200 ∧
      (moon_rating_route parsed size max_moons).status = 200 ∧
      (moon_rating_emoji parsed).status = 200) ∧
    pyFloat "abc" = none ∧
    (star_rating (pyFloat "abc") size max_stars).status = 400 ∧
    (star_rating (pyFloat "abc") size max_stars).body = Body.text "Invalid rating value" ∧
    (moon_rating_route (pyFloat "abc") size max_moons).status = 400 ∧
    (moon_rating_emoji (pyFloat "abc")).status = 400 := by
  have habc : pyFloat "abc" = none := by decide
  cases parsed <;>
    simp [star_rating, moon_rating_route, moon_rating_emoji, habc]

/-- Witness for C5: the failed parse yields the 400 response. -/
theorem C5_invalid_rating_iff_witness :
    (star_rating none 24 5).status = 400 ∧
      (star_rating none 24 5).body = Body.text "Invalid rating value" :=
  (C5_invalid_rating_iff none 24 5 5).1.mpr rfl
theorem glyph_mem (f : ℚ) :
    get_moon_phase f ∈ (["🌑", "🌘", "🌗", "🌖", "🌕"] : List String) := by
  unfold get_moon_phase
  split_ifs <;> simp

theorem glyph_length (f : ℚ) : (get_moon_phase f).length = 1 := by
  unfold get_moon_phase
  split_ifs <;> decide

theorem foldl_append_length (l : List String) :
    ∀ acc : String, (l.foldl (· ++ ·) acc).length = acc.length + (l.map String.length).sum := by
  induction l with
  | nil => intro acc; simp
  | cons a t ih =>
      intro acc
      simp only [List.foldl_cons, List.map_cons, List.sum_cons, ih, String.length_append]
      omega

theorem join_length (l : List String) :
    (String.join l).length = (l.map String.length).sum := by
  have h := foldl_append_length l ""
  simpa [String.join] using h

theorem moon_rating_output_length (rating : ℚ) : (moon_rating_output rating).length = 5 := by
  simp [moon_rating_output]

/-- C6: The legacy text renderer clamps the rating to [0,5], maps each of 5
fixed units' clamped fill values through the phase thresholds to one of 5
fixed glyphs and concatenates them, so the output is always exactly 5 glyphs;
rating=5 yields five full-moon glyphs and rating=0 yields five new-moon
glyphs. -/
theorem C6_legacy_text (rating : ℚ) :
    get_moon_rating rating = String.join (moon_rating_output (max (min 5 rating) 0)) ∧
    (moon_rating_output (max (min 5 rating) 0)).length = 5 ∧
    (moon_rating_output (max (min 5 rating) 0)).all
      (fun g => (["🌑", "🌘", "🌗", "🌖", "🌕"] : List String).contains g) = true ∧
    (get_moon_rating rating).length = 5 ∧
    get_moon_rating 5 = "🌕🌕🌕🌕🌕" ∧
    get_moon_rating 0 = "🌑🌑🌑🌑🌑" := by
  refine ⟨rfl, moon_rating_output_length _, ?_, ?_, ?_, ?_⟩
  · simp only [List.all_eq_true, moon_rating_output, List.mem_map]
    rintro g ⟨i, -, rfl⟩
    exact List.elem_eq_true_of_mem (glyph_mem (moon_value (max (min 5 rating) 0) i))
  · show (String.join (moon_rating_output (max (min 5 rating) 0))).length = 5
    rw [join_length]
    simp [moon_rating_output, List.map_map, Function.comp, glyph_length, List.range_succ]
  · have h1 : max (min 5 (5:ℚ)) 0 = 5 := by norm_num
    have h2 : moon_rating_output 5 = ["🌕", "🌕", "🌕", "🌕", "🌕"] := by
      norm_num [moon_rating_output, moon_value, get_moon_phase, List.range_succ]
    show String.join (moon_rating_output (max (min 5 (5:ℚ)) 0)) = "🌕🌕🌕🌕🌕"
    rw [h1, h2]
    decide
  · have h1 : max (min 5 (0:ℚ)) 0 = 0 := by norm_num
    have h2 : moon_rating_output 0 = ["🌑", "🌑", "🌑", "🌑", "🌑"] := by
      norm_num [moon_rating_output, moon_value, get_moon_phase, List.range_succ]
    show String.join (moon_rating_output (max (min 5 (0:ℚ)) 0)) = "🌑🌑🌑🌑🌑"
    rw [h1, h2]
    decide

/-- C7: Both SVG renderers emit a document of pixel width size*maxUnits,
height size, viewBox 0 0 (100*maxUnits) 100, one 100-wide cell per unit; for
size=10, max=10, rating=3.5 the canvas is 100 wide, 10 high, with 10 unit
cells (3 full, 1 partial, 6 empty). -/
theorem C7_canvas_geometry (rating : ℚ) (size maxU : ℤ) :
    (get_star_rating rating size maxU).width = size * maxU ∧
    (get_star_rating rating size maxU).height = size ∧
    (get_star_rating rating size maxU).viewBoxW = 100 * maxU ∧
    (get_moon_rating_svg_v2 rating size maxU).width = size * maxU ∧
    (get_moon_rating_svg_v2 rating size maxU).height = size ∧
    (get_moon_rating_svg_v2 rating size maxU).viewBoxW = 100 * maxU ∧
    (get_moon_rating_svg_v2 rating size maxU).units.length = maxU.toNat ∧
    ((get_moon_rating_svg_v2 rating size maxU).units.map (fun u => u.bg.cx)) =
      (List.range maxU.toNat).map (fun (i : ℕ) => (i : ℚ) * 100 + 50) ∧
    (get_star_rating 3.5 10 10).width = 100 ∧
    (get_star_rating 3.5 10 10).height = 10 ∧
    (get_star_rating 3.5 10 10).paths =
      [⟨0, "gold", none⟩, ⟨100, "gold", none⟩, ⟨200, "gold", none⟩,
       ⟨300, "#ddd", none⟩, ⟨300, "gold", some 50⟩,
       ⟨400, "#ddd", none⟩, ⟨500, "#ddd", none⟩, ⟨600, "#ddd", none⟩,
       ⟨700, "#ddd", none⟩, ⟨800, "#ddd", none⟩, ⟨900, "#ddd", none⟩] := by
  refine ⟨rfl, rfl, by simp [get_star_rating, mul_comm], rfl, rfl,
    by simp [get_moon_rating_svg_v2, mul_comm], by simp [get_moon_rating_svg_v2], ?_, by decide,
    rfl, ?_⟩
  · simp only [get_moon_rating_svg_v2, List.map_map]
    refine List.map_congr_left ?_
    intro i hi
    simp [moonUnitV2]
  · have hclamp : max 0 (min ((10:ℤ) : ℚ) 3.5) = 3.5 := by norm_num [min_def, max_def]
    have hf : ⌊(3.5 : ℚ)⌋ = 3 := by norm_num
    have hfloor : (⌊(3.5 : ℚ)⌋).toNat = 3 := by rw [hf]; rfl
    simp only [get_star_rating, hclamp, hfloor]
    have h6 : Int.toNat 6 = 6 := rfl
    norm_num [List.range_succ, h6]
theorem star_clamp_zero (rating : ℚ) (M : ℤ) (hM : M ≤ 0) :
    max 0 (min (M : ℚ) rating) = 0 := by
  have h : min (M : ℚ) rating ≤ 0 :=
    le_trans (min_le_left _ _) (by exact_mod_cast hM)
  exact max_eq_left h

/-- C9: With a zero or negative unit count the renderers do not crash and
yield a degenerate image: maxMoons = 0 gives canvas width 0 and no shape
elements, and any non-positive max gives zero star paths and zero moon
units in both moon renderers. -/
theorem C9_degenerate_unit_count (rating : ℚ) (size M : ℤ) (hM : M ≤ 0) :
    (get_moon_rating_svg_v2 rating size 0).width = 0 ∧
    (get_moon_rating_svg_v2 rating size 0).units = [] ∧
    (get_star_rating rating size M).paths = [] ∧
    (get_moon_rating_svg_v2 rating size M).units = [] ∧
    (get_moon_rating_svg rating size M).units = [] := by
  have htn : M.toNat = 0 := Int.toNat_of_nonpos hM
  refine ⟨by simp [get_moon_rating_svg_v2], by simp [get_moon_rating_svg_v2], ?_,
    by simp [get_moon_rating_svg_v2, htn], by simp [get_moon_rating_svg, htn]⟩
  have hc := star_clamp_zero rating M hM
  simp only [get_star_rating, hc]
  have h0 : (⌊(0:ℚ)⌋).toNat = 0 := rfl
  norm_num [h0]
  exact hM

/-- Witness for C9 at max = -1. -/
theorem C9_degenerate_unit_count_witness :
    (-1 : ℤ) ≤ 0 ∧ (get_star_rating 2 24 (-1)).paths = [] :=
  ⟨by norm_num, (C9_degenerate_unit_count 2 24 (-1) (by norm_num)).2.2.1⟩
theorem fill_pct_new : fill_pct_of_phase "new" = 0 := rfl

theorem fill_pct_crescent : fill_pct_of_phase "crescent" = 0.25 := rfl

theorem fill_pct_half : fill_pct_of_phase "half" = 0.5 := rfl

theorem fill_pct_gibbous : fill_pct_of_phase "gibbous" = 0.75 := rfl

theorem fill_pct_full : fill_pct_of_phase "full" = 1.0 := rfl

theorem fill_pct_nonneg (s : String) : 0 ≤ fill_pct_of_phase s := by
  unfold fill_pct_of_phase
  split_ifs <;> norm_num

theorem bucketPct_of_new {f : ℚ} (h : f ≤ 0.1) : bucketPct f = 0 := by
  rw [bucketPct, phase_eq_new h, fill_pct_new]

theorem bucketPct_of_crescent {f : ℚ} (h1 : 0.1 < f) (h2 : f ≤ 0.3) : bucketPct f = 0.25 := by
  rw [bucketPct, phase_eq_crescent h1 h2, fill_pct_crescent]

theorem bucketPct_of_half {f : ℚ} (h1 : 0.3 < f) (h2 : f ≤ 0.6) : bucketPct f = 0.5 := by
  rw [bucketPct, phase_eq_half h1 h2, fill_pct_half]

theorem bucketPct_of_gibbous {f : ℚ} (h1 : 0.6 < f) (h2 : f ≤ 0.9) : bucketPct f = 0.75 := by
  rw [bucketPct, phase_eq_gibbous h1 h2, fill_pct_gibbous]

theorem bucketPct_of_full {f : ℚ} (h : 0.9 < f) : bucketPct f = 1 := by
  rw [bucketPct, phase_eq_full h, fill_pct_full]
  norm_num

theorem bucketPct_nonneg (f : ℚ) : 0 ≤ bucketPct f :=
  fill_pct_nonneg _

theorem moon_value_clamp (rating : ℚ) (M : ℤ) (i : ℕ) (h : i < M.toNat) :
    moon_value (max 0 (min (M : ℚ) rating)) i = moon_value rating i := by
  have hi0 : (0 : ℚ) ≤ (i : ℚ) := Nat.cast_nonneg i
  have hiM : (i : ℚ) + 1 ≤ (M : ℚ) := by
    have h1 : (i : ℤ) < M := Int.lt_toNat.mp h
    have h2 : (i : ℤ) + 1 ≤ M := h1
    exact_mod_cast h2
  unfold moon_value
  rcases le_total rating 0 with hr | hr
  · have l1 : max 0 (min (M : ℚ) rating) = 0 := by
      rw [min_eq_right (by linarith)]
      exact max_eq_left hr
    rw [l1]
    have l2 : max 0 (min 1 ((0 : ℚ) - i)) = 0 :=
      max_eq_left (le_trans (min_le_right _ _) (by linarith))
    have l3 : max 0 (min 1 (rating - i)) = 0 :=
      max_eq_left (le_trans (min_le_right _ _) (by linarith))
    rw [l2, l3]
  · rcases le_total rating (M : ℚ) with hrM | hrM
    · rw [min_eq_right hrM, max_eq_right hr]
    · have l1 : max 0 (min (M : ℚ) rating) = (M : ℚ) := by
        rw [min_eq_left hrM]
        exact max_eq_right (by linarith)
      rw [l1]
      have l2 : min 1 ((M : ℚ) - i) = 1 := min_eq_left (by linarith)
      have l3 : min 1 (rating - i) = 1 := min_eq_left (by linarith)
      rw [l2, l3]

/-- C2: The v2 moon renderer computes for each unit i the fill value
clamp(rating - i, 0, 1), buckets it, maps the bucket to clip width percentage
new→0, crescent→25, half→50, gibbous→75, full→100; each unit gets a gray
circle of radius 40 centred in its 100x100 cell, and a gold circle clipped to
a rectangle of that width anchored at the cell's left edge is emitted exactly
when the clip width is positive; rating=4.2 with maxMoons=5 yields units 0-3
clipped at 100% and unit 4 clipped at 25%. -/
theorem C2_moon_v2_structure (rating : ℚ) (size max_moons : ℤ) :
    (get_moon_rating_svg_v2 rating size max_moons).units =
      (List.range max_moons.toNat).map (fun (i : ℕ) =>
        (⟨⟨(i : ℚ) * 100 + 50, 50, 40, "#ddd", none, 0⟩,
          if bucketPct (moon_value rating i) > 0 then
            some ⟨(i : ℚ) * 100 + 50, 50, 40, "#F4D03F",
              some ⟨(i : ℚ) * 100, 0, bucketPct (moon_value rating i) * 100, 100⟩, 0⟩
          else none⟩ : MoonUnit)) ∧
    ((get_moon_rating_svg_v2 4.2 24 5).units.map unitFill) = [1, 1, 1, 1, 0.25] := by
  constructor
  · simp only [get_moon_rating_svg_v2]
    refine List.map_congr_left ?_
    intro i hi
    have hmv := moon_value_clamp rating max_moons i (List.mem_range.mp hi)
    simp only [moonUnitV2, bucketPct, hmv]
  · have hc : max 0 (min ((5 : ℤ) : ℚ) 4.2) = 4.2 := by norm_num [min_def, max_def]
    have h5 : Int.toNat 5 = 5 := rfl
    have hmv : ∀ k : ℕ, k ≤ 3 → moon_value 4.2 k = 1 := by
      intro k hk
      unfold moon_value
      have hk3 : (k : ℚ) ≤ 3 := by exact_mod_cast hk
      rw [min_eq_left (by linarith)]
      exact max_eq_right (by norm_num)
    have hmv4 : moon_value 4.2 4 = 0.2 := by
      unfold moon_value
      norm_num
    have hp1 : bucketPct (1 : ℚ) = 1 := bucketPct_of_full (by norm_num)
    have hp4 : bucketPct (0.2 : ℚ) = 0.25 := bucketPct_of_crescent (by norm_num) (by norm_num)
    simp only [get_moon_rating_svg_v2, hc, h5, List.range_succ, List.map_append, List.map_cons,
      List.map_nil, moonUnitV2]
    simp only [hmv 0 (by norm_num), hmv 1 (by norm_num), hmv 2 (by norm_num),
      hmv 3 (by norm_num), hmv4]
    simp only [bucketPct] at hp1 hp4
    simp only [hp1, hp4]
    norm_num [unitFill]
theorem filter_map_range_all {α : Type} (q : α → Bool) (f : ℕ → α) (n : ℕ)
    (h : ∀ i, q (f i) = true) : ((List.range n).map f).filter q = (List.range n).map f := by
  refine List.filter_eq_self.mpr ?_
  intro a ha
  rcases List.mem_map.mp ha with ⟨i, -, rfl⟩
  exact h i

theorem filter_map_range_nil {α : Type} (q : α → Bool) (f : ℕ → α) (n : ℕ)
    (h : ∀ i, q (f i) = false) : ((List.range n).map f).filter q = [] := by
  refine List.filter_eq_nil_iff.mpr ?_
  intro a ha
  rcases List.mem_map.mp ha with ⟨i, -, rfl⟩
  simp [h i]

/-- C3: The star renderer splits the clamped rating as fullStars = floor,
partial fraction, emptyStars = maxStars - fullStars - (1 if partial > 0),
emitting exactly fullStars gold paths, then, exactly when partial > 0, a gray
star plus a gold star clipped to width partial*100, then exactly emptyStars
gray paths; rating=3.5 with maxStars=5 gives 3 full stars, 1 partial star
with clip width 50, and 1 empty star. -/
theorem C3_star_split (rating : ℚ) (size max_stars : ℤ) :
    (get_star_rating rating size max_stars).paths =
      (List.range (star_full rating max_stars)).map
        (fun (i : ℕ) => (⟨(i : ℚ) * 100, "gold", none⟩ : StarPath))
      ++ (if star_frac rating max_stars > 0 then
            [⟨(star_full rating max_stars : ℚ) * 100, "#ddd", none⟩,
             ⟨(star_full rating max_stars : ℚ) * 100, "gold",
               some (star_frac rating max_stars * 100)⟩]
          else [])
      ++ (List.range (star_empty rating max_stars)).map
          (fun (i : ℕ) =>
            (⟨((star_full rating max_stars : ℚ) +
                (if star_frac rating max_stars > 0 then 1 else 0) + i) * 100,
              "#ddd", none⟩ : StarPath)) ∧
    ((get_star_rating rating size max_stars).paths.filter
        (fun p => p.fill == "gold" && p.clipWidth.isNone)).length =
      star_full rating max_stars ∧
    ((get_star_rating rating size max_stars).paths.filter
        (fun p => p.fill == "gold" && p.clipWidth.isSome)).length =
      (if star_frac rating max_stars > 0 then 1 else 0) ∧
    ((get_star_rating rating size max_stars).paths.filter
        (fun p => p.fill == "#ddd")).length =
      star_empty rating max_stars + (if star_frac rating max_stars > 0 then 1 else 0) ∧
    (get_star_rating 3.5 24 5).paths =
      [⟨0, "gold", none⟩, ⟨100, "gold", none⟩, ⟨200, "gold", none⟩,
       ⟨300, "#ddd", none⟩, ⟨300, "gold", some 50⟩, ⟨400, "#ddd", none⟩] := by
  have hpaths : (get_star_rating rating size max_stars).paths =
      (List.range (star_full rating max_stars)).map
        (fun (i : ℕ) => (⟨(i : ℚ) * 100, "gold", none⟩ : StarPath))
      ++ (if star_frac rating max_stars > 0 then
            [⟨(star_full rating max_stars : ℚ) * 100, "#ddd", none⟩,
             ⟨(star_full rating max_stars : ℚ) * 100, "gold",
               some (star_frac rating max_stars * 100)⟩]
          else [])
      ++ (List.range (star_empty rating max_stars)).map
          (fun (i : ℕ) =>
            (⟨((star_full rating max_stars : ℚ) +
                (if star_frac rating max_stars > 0 then 1 else 0) + i) * 100,
              "#ddd", none⟩ : StarPath)) := rfl
  refine ⟨hpaths, ?_, ?_, ?_, ?_⟩
  · rw [hpaths, List.filter_append, List.filter_append,
      filter_map_range_all _ _ _ (fun i => rfl),
      filter_map_range_nil _ _ _ (fun i => rfl)]
    have h2 : ((if star_frac rating max_stars > 0 then
        [(⟨(star_full rating max_stars : ℚ) * 100, "#ddd", none⟩ : StarPath),
         ⟨(star_full rating max_stars : ℚ) * 100, "gold",
           some (star_frac rating max_stars * 100)⟩] else []).filter
          (fun p => p.fill == "gold" && p.clipWidth.isNone)) = [] := by
      split_ifs <;> simp [List.filter_cons]
    rw [h2]
    simp
  · rw [hpaths, List.filter_append, List.filter_append,
      filter_map_range_nil _ _ _ (fun i => rfl),
      filter_map_range_nil _ _ _ (fun i => rfl)]
    split_ifs with hf <;> simp [List.filter_cons]
  · rw [hpaths, List.filter_append, List.filter_append,
      filter_map_range_nil _ _ _ (fun i => rfl),
      filter_map_range_all _ _ _ (fun i => rfl)]
    split_ifs with hf <;> simp [List.filter_cons]
  · have hclamp : max 0 (min ((5 : ℤ) : ℚ) 3.5) = 3.5 := by norm_num [min_def, max_def]
    have hf : ⌊(3.5 : ℚ)⌋ = 3 := by norm_num
    have hfloor : (⌊(3.5 : ℚ)⌋).toNat = 3 := by rw [hf]; rfl
    simp only [get_star_rating, hclamp, hfloor]
    have h1 : Int.toNat 1 = 1 := rfl
    norm_num [List.range_succ, h1]

theorem sum_map_range_const (n : ℕ) (c : ℚ) :
    ((List.range n).map (fun _ => c)).sum = n * c := by
  induction n with
  | zero => simp
  | succ n ih =>
      rw [List.range_succ, List.map_append, List.sum_append, ih]
      push_cast
      simp
      ring

theorem starFillSum_clamp (rating : ℚ) (size M : ℤ) :
    starFillSum (get_star_rating rating size M) = max 0 (min (M : ℚ) rating) := by
  set r := max 0 (min (M : ℚ) rating) with hrdef
  set full : ℕ := (⌊r⌋).toNat with hfulldef
  set frac : ℚ := r - full with hfracdef
  have h0r : 0 ≤ r := le_max_left _ _
  have hfullr : ((full : ℕ) : ℚ) = ((⌊r⌋ : ℤ) : ℚ) := by
    rw [hfulldef]
    exact_mod_cast congrArg (fun z : ℤ => (z : ℚ))
      (Int.toNat_of_nonneg (Int.floor_nonneg.mpr h0r))
  have hfrac0 : 0 ≤ frac := by
    rw [hfracdef, hfullr]
    have := Int.floor_le r
    linarith
  have hpaths : (get_star_rating rating size M).paths =
      (List.range full).map (fun (i : ℕ) => (⟨(i : ℚ) * 100, "gold", none⟩ : StarPath))
      ++ (if frac > 0 then
            [⟨(full : ℚ) * 100, "#ddd", none⟩, ⟨(full : ℚ) * 100, "gold", some (frac * 100)⟩]
          else [])
      ++ (List.range ((M - full - (if frac > 0 then 1 else 0)).toNat)).map
          (fun (i : ℕ) =>
            (⟨((full : ℚ) + (if frac > 0 then 1 else 0) + i) * 100, "#ddd", none⟩ : StarPath)) := rfl
  unfold starFillSum
  rw [hpaths, List.map_append, List.map_append, List.sum_append, List.sum_append]
  have hseg1 : (((List.range full).map
      (fun (i : ℕ) => (⟨(i : ℚ) * 100, "gold", none⟩ : StarPath))).map starFill).sum
      = (full : ℚ) := by
    rw [List.map_map]
    have he : (starFill ∘ fun (i : ℕ) => (⟨(i : ℚ) * 100, "gold", none⟩ : StarPath)) =
        fun _ => (1 : ℚ) := funext fun i => rfl
    rw [he, sum_map_range_const]
    ring
  have hseg3 : ((((List.range ((M - full - (if frac > 0 then 1 else 0)).toNat)).map
      (fun (i : ℕ) =>
        (⟨((full : ℚ) + (if frac > 0 then 1 else 0) + i) * 100, "#ddd", none⟩ : StarPath))).map
          starFill).sum : ℚ) = 0 := by
    rw [List.map_map]
    have he : (starFill ∘ fun (i : ℕ) =>
        (⟨((full : ℚ) + (if frac > 0 then 1 else 0) + i) * 100, "#ddd", none⟩ : StarPath)) =
        fun _ => (0 : ℚ) := funext fun i => rfl
    rw [he, sum_map_range_const]
    ring
  rw [hseg1, hseg3]
  by_cases hf : frac > 0
  · rw [if_pos hf]
    have : ([(⟨(full : ℚ) * 100, "#ddd", none⟩ : StarPath),
        ⟨(full : ℚ) * 100, "gold", some (frac * 100)⟩].map starFill).sum = frac := by
      show (0 : ℚ) + (frac * 100 / 100 + 0) = frac
      field_simp
    rw [this]
    rw [hfracdef]
    ring
  · rw [if_neg hf]
    have hfz : frac = 0 := le_antisymm (not_lt.mp hf) hfrac0
    have : r = (full : ℚ) := by rw [hfracdef] at hfz; linarith
    simp [this]

theorem bucketPct_close {f : ℚ} (h0 : 0 ≤ f) (h1 : f ≤ 1) : |bucketPct f - f| < 0.2 := by
  rcases le_or_lt f 0.1 with h | h
  · rw [bucketPct_of_new h, abs_lt]
    constructor <;> linarith
  · rcases le_or_lt f 0.3 with h2 | h2
    · rw [bucketPct_of_crescent h h2, abs_lt]
      constructor <;> linarith
    · rcases le_or_lt f 0.6 with h3 | h3
      · rw [bucketPct_of_half h2 h3, abs_lt]
        constructor <;> linarith
      · rcases le_or_lt f 0.9 with h4 | h4
        · rw [bucketPct_of_gibbous h3 h4, abs_lt]
          constructor <;> linarith
        · rw [bucketPct_of_full h4, abs_lt]
          constructor <;> linarith

theorem moonPctSum_close :
    ∀ (n : ℕ) (c : ℚ), 0 ≤ c → c ≤ n →
      |((List.range n).map (fun i => bucketPct (moon_value c i))).sum - c| < 0.2 := by
  intro n
  induction n with
  | zero =>
      intro c h0 h1
      have hc : c = 0 := le_antisymm (by exact_mod_cast h1) h0
      subst hc
      norm_num
  | succ n ih =>
      intro c h0 h1
      rw [List.range_succ_eq_map, List.map_cons, List.sum_cons, List.map_map]
      have htail : ((List.range n).map (fun i => bucketPct (moon_value c i.succ))).sum =
          ((List.range n).map (fun i => bucketPct (moon_value (c - 1) i))).sum := by
        refine congrArg List.sum (List.map_congr_left ?_)
        intro i _
        have harg : c - ((i.succ : ℕ) : ℚ) = (c - 1) - (i : ℚ) := by
          push_cast
          ring
        unfold moon_value
        rw [harg]
      have hcomp : ((fun i => bucketPct (moon_value c i)) ∘ Nat.succ) =
          fun i => bucketPct (moon_value c i.succ) := funext fun i => rfl
    
      rw [hcomp, htail]
      rcases le_total c 1 with hc1 | hc1
      · have hz : ((List.range n).map (fun i => bucketPct (moon_value (c - 1) i))).sum = 0 := by
          have he : ∀ i ∈ List.range n, bucketPct (moon_value (c - 1) i) = (0 : ℚ) := by
            intro i _
            have hi0 : (0 : ℚ) ≤ (i : ℚ) := Nat.cast_nonneg i
            have hmv : moon_value (c - 1) i = 0 := by
              unfold moon_value
              exact max_eq_left (le_trans (min_le_right _ _) (by linarith))
            rw [hmv]
            exact bucketPct_of_new (by norm_num)
          rw [List.map_congr_left he, sum_map_range_const]
          ring
        have hmv0 : moon_value c 0 = c := by
          unfold moon_value
          rw [Nat.cast_zero, sub_zero, min_eq_right hc1]
          exact max_eq_right h0
        rw [hz, hmv0]
        have := bucketPct_close h0 hc1
        calc |bucketPct c + 0 - c| = |bucketPct c - c| := by ring_nf
          _ < 0.2 := this
      · have hmv0 : moon_value c 0 = 1 := by
          unfold moon_value
          rw [Nat.cast_zero, sub_zero, min_eq_left hc1]
          exact max_eq_right (by norm_num)
        rw [hmv0, bucketPct_of_full (by norm_num)]
        have hIH := ih (c - 1) (by linarith) (by push_cast at h1 ⊢; linarith)
        calc |1 + ((List.range n).map (fun i => bucketPct (moon_value (c - 1) i))).sum - c|
            = |((List.range n).map (fun i => bucketPct (moon_value (c - 1) i))).sum - (c - 1)| := by
              ring_nf
          _ < 0.2 := hIH

theorem unitFill_moonUnitV2 (c : ℚ) (i : ℕ) :
    unitFill (moonUnitV2 c i) = bucketPct (moon_value c i) := by
  by_cases h : fill_pct_of_phase (get_moon_phase_type (moon_value c i)) > 0
  · simp only [moonUnitV2, unitFill, bucketPct, if_pos h]
    field_simp
  · simp only [moonUnitV2, unitFill, bucketPct, if_neg h]
    exact (le_antisymm (not_lt.mp h) (fill_pct_nonneg _)).symm

theorem moonFillSum_v2 (rating : ℚ) (size M : ℤ) :
    moonFillSum (get_moon_rating_svg_v2 rating size M) =
      ((List.range M.toNat).map
        (fun i => bucketPct (moon_value (max 0 (min (M : ℚ) rating)) i))).sum := by
  unfold moonFillSum get_moon_rating_svg_v2
  rw [List.map_map]
  exact congrArg List.sum (List.map_congr_left fun i _ => unitFill_moonUnitV2 _ i)

theorem clamp_le_toNat (rating : ℚ) (M : ℤ) :
    max 0 (min (M : ℚ) rating) ≤ (M.toNat : ℚ) := by
  apply max_le
  · exact_mod_cast Nat.cast_nonneg M.toNat
  · calc min (M : ℚ) rating ≤ (M : ℚ) := min_le_left _ _
      _ ≤ (M.toNat : ℚ) := by exact_mod_cast Int.self_le_toNat M

/-- C4 (amended): for every rating R and unit count M the star renderer's
rendered fill sum equals clamp(R, 0, M) exactly, and the moon v2 renderer's
bucket-derived fill sum differs from clamp(R, 0, M) by strictly less than
0.2 (the single fractional unit's bucket rounding). -/
theorem C4_fill_sum (rating : ℚ) (size M : ℤ) :
    starFillSum (get_star_rating rating size M) = max 0 (min (M : ℚ) rating) ∧
    |moonFillSum (get_moon_rating_svg_v2 rating size M) - max 0 (min (M : ℚ) rating)| < 0.2 := by
  refine ⟨starFillSum_clamp rating size M, ?_⟩
  rw [moonFillSum_v2]
  exact moonPctSum_close M.toNat _ (le_max_left _ _) (clamp_le_toNat rating M)

/-- C4 as stated is false: at rating 0.9 with a single moon unit the
bucket-derived fill sum is 0.75, which differs from clamp(0.9, 0, 1) = 0.9
by 0.15, exceeding the claimed 0.1-per-unit bound. -/
theorem C4_counterexample :
    ¬ |moonFillSum (get_moon_rating_svg_v2 0.9 24 1) - max 0 (min ((1 : ℤ) : ℚ) 0.9)| ≤
      0.1 * 1 := by
  have hclamp : max 0 (min ((1 : ℤ) : ℚ) 0.9) = 0.9 := by norm_num [min_def, max_def]
  have hsum : moonFillSum (get_moon_rating_svg_v2 0.9 24 1) = 0.75 := by
    rw [moonFillSum_v2, hclamp]
    have h1 : Int.toNat 1 = 1 := rfl
    rw [h1]
    have hmv : moon_value 0.9 0 = 0.9 := by
      unfold moon_value
      norm_num
    simp only [List.range_succ, List.range_zero, List.nil_append, List.map_cons, List.map_nil,
      List.sum_cons, List.sum_nil, hmv]
    rw [bucketPct_of_gibbous (by norm_num) (by norm_num)]
    norm_num
  rw [hsum, hclamp]
  have habs : |(0.75 : ℚ) - 0.9| = 0.15 := by
    rw [abs_of_neg (by norm_num : (0.75 : ℚ) - 0.9 < 0)]
    norm_num
  rw [habs]
  norm_num
theorem clip_width_full : clip_width_of_phase "full" = 100 := rfl

theorem fill_pct_full_eval : fill_pct_of_phase "full" = 1 := by
  rw [fill_pct_full]
  norm_num

/-- C8: Evaluating both moon SVG implementations at rating 2, size 24,
maxMoons 5: the v2 renderer places every gold circle at its cell centre with
the clip revealing exactly the bucket percentage, but the first renderer's
extra translate pushes the unit-1 gold circle to effective centre x=250,
outside its cell and its clip interval [100,200], so the two are not visually
equivalent and the first implementation does not show the bucket-derived fill
(its own code comment concedes the clipping is improper). -/
theorem C8_v1_clip_misalignment :
    ((get_moon_rating_svg 2 24 5).units.map (fun u => u.filled.map effCenterX)) =
      [some 50, some 250, none, none, none] ∧
    ((get_moon_rating_svg_v2 2 24 5).units.map (fun u => u.filled.map effCenterX)) =
      [some 50, some 150, none, none, none] ∧
    moonVisibleOk 2 5 (get_moon_rating_svg_v2 2 24 5) = true ∧
    moonVisibleOk 2 5 (get_moon_rating_svg 2 24 5) = false := by
  have hclamp : max 0 (min ((5 : ℤ) : ℚ) 2) = 2 := by norm_num [min_def, max_def]
  have h5 : Int.toNat 5 = 5 := rfl
  have hmv0 : moon_value 2 0 = 1 := by unfold moon_value; norm_num [min_def, max_def]
  have hmv1 : moon_value 2 1 = 1 := by unfold moon_value; norm_num [min_def, max_def]
  have hmv2 : moon_value 2 2 = 0 := by unfold moon_value; norm_num [min_def, max_def]
  have hmv3 : moon_value 2 3 = 0 := by unfold moon_value; norm_num [min_def, max_def]
  have hmv4 : moon_value 2 4 = 0 := by unfold moon_value; norm_num [min_def, max_def]
  have hphF : get_moon_phase_type 1 = "full" := phase_eq_full (by norm_num)
  have hphN : get_moon_phase_type 0 = "new" := phase_eq_new (by norm_num)
  have hbF : bucketPct (1 : ℚ) = 1 := bucketPct_of_full (by norm_num)
  have hbN : bucketPct (0 : ℚ) = 0 := bucketPct_of_new (by norm_num)
  have hv1 : (get_moon_rating_svg 2 24 5).units =
      [⟨⟨50, 50, 40, "#ddd", none, 0⟩, some ⟨50, 50, 40, "#F4D03F", some ⟨0, 0, 100, 100⟩, 0⟩⟩,
       ⟨⟨150, 50, 40, "#ddd", none, 0⟩,
         some ⟨150, 50, 40, "#F4D03F", some ⟨0, 0, 100, 100⟩, 100⟩⟩,
       ⟨⟨250, 50, 40, "#ddd", none, 0⟩, none⟩,
       ⟨⟨350, 50, 40, "#ddd", none, 0⟩, none⟩,
       ⟨⟨450, 50, 40, "#ddd", none, 0⟩, none⟩] := by
    simp only [get_moon_rating_svg, hclamp, h5, List.range_succ, List.range_zero,
      List.nil_append, List.map_append, List.map_cons, List.map_nil, List.singleton_append,
      List.cons_append, moonUnitV1, hmv0, hmv1, hmv2, hmv3, hmv4, hphF, hphN, clip_width_full]
    norm_num
    refine ⟨fun h => ?_, fun h => ?_⟩ <;> exact absurd h (by decide)
  have hv2 : (get_moon_rating_svg_v2 2 24 5).units =
      [⟨⟨50, 50, 40, "#ddd", none, 0⟩, some ⟨50, 50, 40, "#F4D03F", some ⟨0, 0, 100, 100⟩, 0⟩⟩,
       ⟨⟨150, 50, 40, "#ddd", none, 0⟩,
         some ⟨150, 50, 40, "#F4D03F", some ⟨100, 0, 100, 100⟩, 0⟩⟩,
       ⟨⟨250, 50, 40, "#ddd", none, 0⟩, none⟩,
       ⟨⟨350, 50, 40, "#ddd", none, 0⟩, none⟩,
       ⟨⟨450, 50, 40, "#ddd", none, 0⟩, none⟩] := by
    simp only [get_moon_rating_svg_v2, hclamp, h5, List.range_succ, List.range_zero,
      List.nil_append, List.map_append, List.map_cons, List.map_nil, List.singleton_append,
      List.cons_append, moonUnitV2, hmv0, hmv1, hmv2, hmv3, hmv4, hphF, hphN, fill_pct_full_eval]
    norm_num [fill_pct_of_phase]
  refine ⟨?_, ?_, ?_, ?_⟩
  · rw [hv1]
    norm_num [effCenterX]
  · rw [hv2]
    norm_num [effCenterX]
  · unfold moonVisibleOk
    rw [hv2]
    simp only [hclamp, List.enum, List.enumFrom, List.all_cons, List.all_nil,
      unitVisibleMatches, effCenterX, effClipX, hmv0, hmv1, hmv2, hmv3, hmv4, hbF, hbN,
      Option.map_some, Option.map_none, Bool.and_eq_true, decide_eq_true_eq, beq_iff_eq]
    norm_num
  · rw [Bool.eq_false_iff]
    intro hcontra
    unfold moonVisibleOk at hcontra
    rw [hv1] at hcontra
    simp only [hclamp, List.enum, List.enumFrom, List.all_cons, List.all_nil,
      unitVisibleMatches, effCenterX, effClipX, hmv0, hmv1, hmv2, hmv3, hmv4, hbF, hbN,
      Option.map_some, Option.map_none, Bool.and_eq_true, decide_eq_true_eq,
      beq_iff_eq] at hcontra
    norm_num at hcontra
